import Mathlib

/-!
Verification development for the application-layer payment service
(`mcp-server/app`).  The Python sources are shallowly embedded:

* `app/core/rate_limit.py`  → namespace `RateLimit`
* `app/payments/service.py` → namespace `Payments`
* `app/payments/adapters/__init__.py` (class `X402Adapter`) → namespace `X402`

Timestamps (`time.time()`) are modelled as natural-number seconds.  Python
exceptions are modelled with `Except`, with an inductive error type whose
constructors record which check raised (in the source every failure is a
`PaymentError` distinguished by its message; the constructors mirror the
distinct raise sites).  External collaborators (the EIP-712 signature
recovery primitive and the Circle payment client) are passed in as oracle
parameters, exactly at the points where the source awaits them.
-/

/-- Decidable equality for `Except`, needed to settle concrete runs by
`decide`. -/
instance {e a : Type} [DecidableEq e] [DecidableEq a] : DecidableEq (Except e a) := fun
  | .ok x, .ok y =>
    if h : x = y then .isTrue (by rw [h]) else .isFalse (fun hc => by cases hc; exact h rfl)
  | .ok _, .error _ => .isFalse (fun hc => by cases hc)
  | .error _, .ok _ => .isFalse (fun hc => by cases hc)
  | .error x, .error y =>
    if h : x = y then .isTrue (by rw [h]) else .isFalse (fun hc => by cases hc; exact h rfl)

/-- Python `str(x)` applied to an `Optional[str]`: `str(None)` is the
string `"None"`. -/
def pyStr : Option String → String
  | none => "None"
  | some s => s

/-- ASCII lower-casing of one character (the fragment of Python
`str.lower()` exercised by hex addresses). -/
def asciiLowerChar (c : Char) : Char :=
  if 'A' ≤ c ∧ c ≤ 'Z' then Char.ofNat (c.toNat + 32) else c

/-- ASCII lower-casing of a string. -/
def asciiLower (s : String) : String := String.mk (s.data.map asciiLowerChar)

/-- UTF-8 encoding of one character, as Python `str.encode()` produces. -/
def utf8Char (c : Char) : List Nat :=
  let n := c.toNat
  if n < 0x80 then [n]
  else if n < 0x800 then [0xC0 + n / 64, 0x80 + n % 64]
  else if n < 0x10000 then [0xE0 + n / 4096, 0x80 + (n / 64) % 64, 0x80 + n % 64]
  else [0xF0 + n / 262144, 0x80 + (n / 4096) % 64, 0x80 + (n / 64) % 64, 0x80 + n % 64]

/-- UTF-8 byte sequence of a string (Python `str.encode()`). -/
def utf8Bytes (s : String) : List Nat := s.data.flatMap utf8Char

/-- Decimal digit test. -/
def isDigitCh (c : Char) : Bool := '0' ≤ c && c ≤ '9'

namespace RateLimit

/-! ### app/core/rate_limit.py

`ABUSE_THRESHOLD_COUNT = 50`, `ABUSE_WINDOW_SECONDS = 15 * 60 = 900`.
The module-level `_abuse_tracker` dict holds two maps (`"ip"` and
`"user"`), each mapping a key string to an entry dict with fields
`count`, `first_seen`, `blocked`.  Python dicts are modelled as
association lists with unique keys (insertion order preserved). -/

def ABUSE_THRESHOLD_COUNT : Nat := 50

def ABUSE_WINDOW_SECONDS : Nat := 15 * 60

/-- Entry of `_abuse_tracker["ip"]` / `_abuse_tracker["user"]`:
the dict `{"count": ..., "first_seen": ..., "blocked": ...}` created by
`track_failed_request`. -/
structure AbuseEntry where
  count : Nat
  first_seen : Nat
  blocked : Bool
deriving DecidableEq

/-- Per-key body of `track_failed_request` (lines 51-66 for the IP branch,
69-85 for the user branch; both branches are this same computation):
create the entry if absent, reset the window if `now - first_seen >
ABUSE_WINDOW_SECONDS`, increment `count`, and set `blocked` once the
incremented count reaches the threshold while not already blocked. -/
def trackKey (st : Option AbuseEntry) (now : Nat) : AbuseEntry :=
  let e0 := st.getD ⟨0, now, false⟩
  let e1 := if e0.first_seen + ABUSE_WINDOW_SECONDS < now then
      { e0 with count := 0, first_seen := now } else e0
  let e2 := { e1 with count := e1.count + 1 }
  if ABUSE_THRESHOLD_COUNT ≤ e2.count && !e2.blocked then { e2 with blocked := true } else e2

/-- Python dict assignment `m[k] = v`: replace in place when the key is
present, append otherwise. -/
def setKey (l : List (String × AbuseEntry)) (k : String) (v : AbuseEntry) :
    List (String × AbuseEntry) :=
  if (l.lookup k).isSome then
    l.map (fun p => if p.1 == k then (k, v) else p)
  else l ++ [(k, v)]

/-- The module-level `_abuse_tracker` store. -/
structure AbuseTracker where
  ip : List (String × AbuseEntry)
  user : List (String × AbuseEntry)
deriving DecidableEq

/-- Function `track_failed_request(request, reason)` (lines 42-94): updates
the IP entry, and the user entry when a user id is present.  The `reason`
argument only feeds logging and is omitted. -/
def track_failed_request (tr : AbuseTracker) (ip : String) (user_id : Option String)
    (now : Nat) : AbuseTracker :=
  let ipMap := setKey tr.ip ip (trackKey (tr.ip.lookup ip) now)
  match user_id with
  | none => ⟨ipMap, tr.user⟩
  | some u => ⟨ipMap, setKey tr.user u (trackKey (tr.user.lookup u) now)⟩

/-- A sequence of failed requests from one identity, at the given
timestamps. -/
def runFailures (tr : AbuseTracker) (ip : String) (user_id : Option String) :
    List Nat → AbuseTracker
  | [] => tr
  | t :: ts => runFailures (track_failed_request tr ip user_id t) ip user_id ts

/-- Iterated per-key update, the per-key shadow of `runFailures`. -/
def trackListOpt (st : Option AbuseEntry) : List Nat → Option AbuseEntry
  | [] => st
  | t :: ts => trackListOpt (some (trackKey st t)) ts

/-- Function `is_blocked(request)` (lines 97-113), keyed on the derived
identity: the IP entry is consulted first, then the user entry. -/
def is_blocked (tr : AbuseTracker) (ip : String) (user_id : Option String) :
    Bool × Option String :=
  match tr.ip.lookup ip with
  | some e =>
    if e.blocked then (true, some "IP address is blocked due to abuse")
    else match user_id with
      | some u =>
        match tr.user.lookup u with
        | some eu => if eu.blocked then (true, some "User account is blocked due to abuse")
                     else (false, none)
        | none => (false, none)
      | none => (false, none)
  | none =>
    match user_id with
    | some u =>
      match tr.user.lookup u with
      | some eu => if eu.blocked then (true, some "User account is blocked due to abuse")
                   else (false, none)
      | none => (false, none)
    | none => (false, none)

/-! ### Deferred unblock (function `block_client`, lines 116-141)

`block_client` sets `blocked = True` for the key and spawns an
`asyncio` task that sleeps `duration_seconds` and then unconditionally
sets `blocked = False`.  Each call spawns an independent task; nothing
cancels or supersedes an earlier task.  The model below tracks, for one
key, the blocked flag together with the multiset of absolute fire times
of the outstanding unblock tasks; an outstanding task with fire time `d`
runs at wall-clock time `d`. -/

structure BlockedKeyState where
  blocked : Bool
  pendingUnblocks : List Nat
deriving DecidableEq

/-- Function `block_client` at time `now` with the given duration: flips
the flag on and schedules one more independent unblock task that will
fire at `now + duration`. -/
def block_client (s : BlockedKeyState) (now duration : Nat) : BlockedKeyState :=
  ⟨true, (now + duration) :: s.pendingUnblocks⟩

/-- Body of `unblock_after_delay` once its sleep elapses (lines 134-139):
unconditionally sets `blocked = False`, for whichever task fires.  The
fired task (with fire time `d`) leaves the outstanding set. -/
def fire_unblock (s : BlockedKeyState) (d : Nat) : BlockedKeyState :=
  ⟨false, s.pendingUnblocks.erase d⟩

end RateLimit

namespace SHA256

/-! ### hashlib.sha256

The adapter computes `hashlib.sha256(intent_str.encode()).hexdigest()`.
This is the FIPS 180-4 SHA-256 function, embedded here over byte lists,
with 32-bit words as naturals reduced modulo `2 ^ 32`. -/

/-- Reduction to a 32-bit word. -/
def w32 (x : Nat) : Nat := x % 4294967296

/-- Right rotation of a 32-bit word by `n` places. -/
def rotr (n x : Nat) : Nat := w32 ((x >>> n) ||| (x <<< (32 - n)))

/-- Choice function `Ch(e,f,g)`. -/
def ch (e f g : Nat) : Nat := Nat.xor (e &&& f) ((Nat.xor e 4294967295) &&& g)

/-- Majority function `Maj(a,b,c)`. -/
def maj (a b c : Nat) : Nat := Nat.xor (Nat.xor (a &&& b) (a &&& c)) (b &&& c)

/-- Large sigma 0. -/
def bigS0 (x : Nat) : Nat := Nat.xor (Nat.xor (rotr 2 x) (rotr 13 x)) (rotr 22 x)

/-- Large sigma 1. -/
def bigS1 (x : Nat) : Nat := Nat.xor (Nat.xor (rotr 6 x) (rotr 11 x)) (rotr 25 x)

/-- Small sigma 0. -/
def smallS0 (x : Nat) : Nat := Nat.xor (Nat.xor (rotr 7 x) (rotr 18 x)) (x >>> 3)

/-- Small sigma 1. -/
def smallS1 (x : Nat) : Nat := Nat.xor (Nat.xor (rotr 17 x) (rotr 19 x)) (x >>> 10)

/-- The 64 round constants of FIPS 180-4 (written in decimal). -/
def K : List Nat :=
  [1116352408, 1899447441, 3049323471, 3921009573, 961987163,
   1508970993, 2453635748, 2870763221, 3624381080, 310598401,
   607225278, 1426881987, 1925078388, 2162078206, 2614888103,
   3248222580, 3835390401, 4022224774, 264347078, 604807628,
   770255983, 1249150122, 1555081692, 1996064986, 2554220882,
   2821834349, 2952996808, 3210313671, 3336571891, 3584528711,
   113926993, 338241895, 666307205, 773529912, 1294757372,
   1396182291, 1695183700, 1986661051, 2177026350, 2456956037,
   2730485921, 2820302411, 3259730800, 3345764771, 3516065817,
   3600352804, 4094571909, 275423344, 430227734, 506948616,
   659060556, 883997877, 958139571, 1322822218, 1537002063,
   1747873779, 1955562222, 2024104815, 2227730452, 2361852424,
   2428436474, 2756734187, 3204031479, 3329325298]

/-- Working state of the compression function. -/
structure Hash8 where
  a : Nat
  b : Nat
  c : Nat
  d : Nat
  e : Nat
  f : Nat
  g : Nat
  h : Nat

/-- Initial hash value of FIPS 180-4 (written in decimal). -/
def initH : Hash8 :=
  ⟨1779033703, 3144134277, 1013904242, 2773480762,
   1359893119, 2600822924, 528734635, 1541459225⟩

/-- Big-endian 8-byte encoding of `v` (bit length field of the padding). -/
def natToBytesBE : Nat → Nat → List Nat
  | 0, _ => []
  | k + 1, v => natToBytesBE k (v / 256) ++ [v % 256]

/-- Merkle-Damgard padding: a `0x80` byte, zeros to 56 mod 64, then the
message bit length in 8 big-endian bytes. -/
def padMsg (msg : List Nat) : List Nat :=
  let L := msg.length
  let zeros := (120 - (L + 1) % 64) % 64
  msg ++ 0x80 :: List.replicate zeros 0 ++ natToBytesBE 8 (8 * L)

/-- Big-endian packing of bytes into 32-bit words. -/
def toWords : List Nat → List Nat
  | b0 :: b1 :: b2 :: b3 :: rest => (((b0 * 256 + b1) * 256 + b2) * 256 + b3) :: toWords rest
  | _ => []

/-- Message-schedule extension by `k` further words. -/
def extendW (w : List Nat) : Nat → List Nat
  | 0 => w
  | k + 1 =>
    let L := w.length
    let nw := w32 (smallS1 (w.getD (L - 2) 0) + w.getD (L - 7) 0 +
      smallS0 (w.getD (L - 15) 0) + w.getD (L - 16) 0)
    extendW (w ++ [nw]) k

/-- One compression round, fed the pair of round constant and schedule
word. -/
def round (s : Hash8) (kw : Nat × Nat) : Hash8 :=
  let t1 := w32 (s.h + bigS1 s.e + ch s.e s.f s.g + kw.1 + kw.2)
  let t2 := w32 (bigS0 s.a + maj s.a s.b s.c)
  ⟨w32 (t1 + t2), s.a, s.b, s.c, w32 (s.d + t1), s.e, s.f, s.g⟩

/-- Compression of one 64-byte block into the chaining value. -/
def block (hv : Hash8) (blk : List Nat) : Hash8 :=
  let w := extendW (toWords blk) 48
  let s := (K.zip w).foldl round hv
  ⟨w32 (hv.a + s.a), w32 (hv.b + s.b), w32 (hv.c + s.c), w32 (hv.d + s.d),
   w32 (hv.e + s.e), w32 (hv.f + s.f), w32 (hv.g + s.g), w32 (hv.h + s.h)⟩

/-- Split into 64-byte blocks. -/
def chunks64 (l : List Nat) : List (List Nat) :=
  if l.isEmpty then [] else l.take 64 :: chunks64 (l.drop 64)
termination_by l.length
decreasing_by
  cases l with
  | nil => simp_all
  | cons a t => simp [List.length_drop]; omega

/-- Big-endian assembly of the eight hash words into one natural
number. -/
def combineH (hv : Hash8) : Nat :=
  ((((((w32 hv.a * 4294967296 + w32 hv.b) * 4294967296 + w32 hv.c) * 4294967296 + w32 hv.d) *
    4294967296 + w32 hv.e) * 4294967296 + w32 hv.f) * 4294967296 + w32 hv.g) * 4294967296 + w32 hv.h

/-- The SHA-256 digest of a byte list, assembled into one natural number
(big-endian word order). -/
def digestNat (msg : List Nat) : Nat :=
  combineH ((chunks64 (padMsg msg)).foldl block initH)

/-- Lower-case hex digit. -/
def hexDigitChar (d : Nat) : Char :=
  if d < 10 then Char.ofNat (48 + d) else Char.ofNat (87 + d)

/-- Fixed-width big-endian hex rendering. -/
def hexChars : Nat → Nat → List Char
  | 0, _ => []
  | k + 1, v => hexChars k (v / 16) ++ [hexDigitChar (v % 16)]

/-- Python `hexdigest()`: the digest as 64 lower-case hex characters. -/
def hexdigest (msg : List Nat) : String := String.mk (hexChars 64 (digestNat msg))

end SHA256

namespace Payments

/-! ### app/payments/service.py

`PaymentRequest` is a pydantic model with required string fields
`from_wallet_id`, `to_address`, `amount`, a `currency` field defaulting
to `"USD"`, and an optional `destination_chain`.  Its `amount` validator
calls Python `float()` and rejects non-positive values.  `float()` is
embedded below for ASCII inputs as an exact parser into `PyFloat`
(rationals plus the infinities and NaN); binary rounding and the
`OverflowError` on astronomically large exponents are not modelled, so
finite parsed values are exact rationals of the literal. -/

/-- Result of Python `float()`: a finite value, `nan`, or a signed
infinity. -/
inductive PyFloat where
  | finite (q : ℚ)
  | nan
  | inf
  | ninf
deriving DecidableEq

/-- Python whitespace stripped by `float()`. -/
def isSpaceCh (c : Char) : Bool :=
  c = ' ' || c = '\t' || c = '\n' || c = '\r' || c = Char.ofNat 11 || c = Char.ofNat 12

/-- Digit-run scanner with the CPython underscore rule: an underscore
must be both preceded and followed by a digit.  Returns the accumulated
value, the number of digits read, and the unread remainder; `none` on a
misplaced underscore. -/
def digitsLoop : Nat → Nat → List Char → Option (Nat × Nat × List Char)
  | acc, cnt, [] => some (acc, cnt, [])
  | acc, cnt, c :: cs =>
    if isDigitCh c then digitsLoop (acc * 10 + (c.toNat - 48)) (cnt + 1) cs
    else if c = '_' then
      match cs with
      | d :: cs2 =>
        if isDigitCh d then digitsLoop (acc * 10 + (d.toNat - 48)) (cnt + 1) cs2 else none
      | [] => none
    else some (acc, cnt, c :: cs)

/-- Reads a (possibly empty) digit run; a leading underscore is not
consumed. -/
def readDigits (cs : List Char) : Option (Nat × Nat × List Char) :=
  match cs with
  | c :: _ => if isDigitCh c then digitsLoop 0 0 cs else some (0, 0, cs)
  | [] => some (0, 0, [])

/-- The rational `(-1)^sign * m * 10^e`, built with core `mkRat` so that
concrete instances reduce in the kernel. -/
def decValue (sign : Bool) (m : Nat) (e : Int) : ℚ :=
  if 0 ≤ e then mkRat ((if sign then -1 else 1) * m * 10 ^ e.toNat) 1
  else mkRat ((if sign then -1 else 1) * m) (10 ^ (-e).toNat)

/-- Exponent part: `e`/`E`, an optional sign, and a nonempty digit run
that must exhaust the input. -/
def parseExponent (cs : List Char) : Option Int :=
  match cs with
  | [] => none
  | e :: r =>
    if e = 'e' ∨ e = 'E' then
      let (eneg, r2) : Bool × List Char :=
        match r with
        | '+' :: rest => (false, rest)
        | '-' :: rest => (true, rest)
        | rest => (false, rest)
      match readDigits r2 with
      | some (ev, ecnt, []) =>
        if ecnt = 0 then none else some (if eneg then -(ev : Int) else (ev : Int))
      | _ => none
    else none

/-- Decimal-literal branch of `float()` after the sign: integer digits,
an optional fraction, an optional exponent; at least one mantissa digit
overall. -/
def parseDecimal (neg : Bool) (cs : List Char) : Option PyFloat :=
  match readDigits cs with
  | none => none
  | some (ip, ipCnt, rest) =>
    let fracRes : Option (Nat × Nat × List Char) :=
      match rest with
      | '.' :: r => readDigits r
      | _ => some (0, 0, rest)
    match fracRes with
    | none => none
    | some (fr, frCnt, rest2) =>
      if ipCnt + frCnt = 0 then none
      else
        let mant := ip * 10 ^ frCnt + fr
        match rest2 with
        | [] => some (.finite (decValue neg mant (-(frCnt : Int))))
        | _ =>
          match parseExponent rest2 with
          | none => none
          | some ex => some (.finite (decValue neg mant (ex - (frCnt : Int))))

/-- Python `float(s)` for ASCII inputs: strip whitespace, read an
optional sign, then either a case-insensitive `nan` / `inf` /
`infinity` keyword or a decimal literal.  `none` models the
`ValueError`. -/
def parseFloat (s : String) : Option PyFloat :=
  let stripped := ((s.data.dropWhile isSpaceCh).reverse.dropWhile isSpaceCh).reverse
  match stripped with
  | [] => none
  | _ =>
    let (neg, cs) : Bool × List Char :=
      match stripped with
      | '+' :: rest => (false, rest)
      | '-' :: rest => (true, rest)
      | rest => (false, rest)
    let low := cs.map asciiLowerChar
    if low = "nan".data then some .nan
    else if low = "inf".data ∨ low = "infinity".data then
      some (if neg then .ninf else .inf)
    else parseDecimal neg cs

/-- Python comparison `float_val <= 0` (false for NaN). -/
def pyLeZero : PyFloat → Bool
  | .finite q => decide (q ≤ 0)
  | .nan => false
  | .inf => false
  | .ninf => true

/-- Raw keyword arguments handed to `PaymentRequest(**request_data)`;
`none` marks an absent key. -/
structure RawRequest where
  from_wallet_id : Option String
  to_address : Option String
  amount : Option String
  currency : Option String
  destination_chain : Option String
deriving DecidableEq

/-- A validated `PaymentRequest`. -/
structure PaymentRequest where
  from_wallet_id : String
  to_address : String
  amount : String
  currency : String
  destination_chain : Option String
deriving DecidableEq

/-- The `validate_amount` validator (lines 19-27).  Note that the
`ValueError("Amount must be positive")` raised for a non-positive parse
is caught by the same `except ValueError` and re-raised with the
numeric-string message, so both failure paths carry that message. -/
def validate_amount (v : String) : Except String String :=
  match parseFloat v with
  | none => .error "Amount must be a valid numeric string"
  | some f =>
    if pyLeZero f then .error "Amount must be a valid numeric string" else .ok v

/-- Pydantic construction of `PaymentRequest`: required fields, the
`currency` default, and the amount validator.  (Pydantic reports all
field errors together; only the failure/success outcome and the error
kind matter here, so fields are checked in declaration order.) -/
def buildRequest (r : RawRequest) : Except String PaymentRequest :=
  match r.from_wallet_id with
  | none => .error "field required: from_wallet_id"
  | some fw =>
    match r.to_address with
    | none => .error "field required: to_address"
    | some ta =>
      match r.amount with
      | none => .error "field required: amount"
      | some am =>
        match validate_amount am with
        | .error e => .error e
        | .ok amv => .ok ⟨fw, ta, amv, r.currency.getD "USD", r.destination_chain⟩

/-- Hex-digit test of the character class `[a-fA-F0-9]`. -/
def isHexCh (c : Char) : Bool :=
  isDigitCh c || ('a' ≤ c && c ≤ 'f') || ('A' ≤ c && c ≤ 'F')

/-- The compiled pattern `^0x[a-fA-F0-9]{40}$` under `re.match`
(line 54).  Python `$` also matches just before one trailing newline,
so a 40-hex-digit address followed by a single `\n` matches too. -/
def matchesPrivyPattern (s : String) : Bool :=
  match s.data with
  | '0' :: 'x' :: rest =>
    (rest.length == 40 && rest.all isHexCh) ||
      (rest.length == 41 && (rest.take 40).all isHexCh && rest.getLast? == some '\n')
  | _ => false

/-- One call made by `pay` on the external payment client. -/
inductive BackendCall where
  | simulateCall (fw ta am cur : String) (dest : Option String)
  | executeCall (fw ta am cur : String) (dest : Option String)
deriving DecidableEq

/-- Dict returned by `client.simulate_payment`; `none` fields model
absent keys. -/
structure SimResult where
  status : Option String
  validation_passed : Option Bool
  reason : Option String
deriving DecidableEq

/-- Dict returned by `client.execute_payment`. -/
structure ExecResult where
  transfer_id : Option String
  tx_hash : Option String
deriving DecidableEq

/-- Python truthiness of `simulation.get("validation_passed")`. -/
def truthyOptBool : Option Bool → Bool
  | some b => b
  | none => false

/-- Failure kinds of `PaymentOrchestrator.pay`, one per raise site:
`PaymentError("Invalid input: ...")`, the Privy-wallet
`PaymentError`, `GuardValidationError`, and
`PaymentError("Payment execution failed: ...")`. -/
inductive PayError where
  | invalidInput (msg : String)
  | walletPolicy
  | guardViolation (msg : String)
  | executionFailed (msg : String)
deriving DecidableEq

/-- Successful result dict of `pay` (lines 96-106). -/
structure PayReceipt where
  status : String
  payment_id : Option String
  transfer_id : Option String
  transaction_id : Option String
  blockchain_tx : Option String
  amount : String
  currency : String
  message : String
  idempotency_key : String
deriving DecidableEq

/-- Method `PaymentOrchestrator.pay` (lines 35-110).  The two awaited
backend calls are oracles: `sim` is what `simulate_payment` returns and
`ex` is the outcome of `execute_payment` (`Except.error` models a raised
exception).  `idem` stands for the `uuid.uuid4()` idempotency key.  The
second component records the backend calls actually issued, in order. -/
def pay (sim : SimResult) (ex : Except String ExecResult) (idem : String)
    (r : RawRequest) : Except PayError PayReceipt × List BackendCall :=
  match buildRequest r with
  | .error e => (.error (.invalidInput e), [])
  | .ok req =>
    if matchesPrivyPattern req.from_wallet_id then (.error .walletPolicy, [])
    else
      let simCall := BackendCall.simulateCall req.from_wallet_id req.to_address req.amount
        req.currency req.destination_chain
      if sim.status == some "success" && truthyOptBool sim.validation_passed then
        let exCall := BackendCall.executeCall req.from_wallet_id req.to_address req.amount
          req.currency req.destination_chain
        match ex with
        | .error msg =>
          (.error (.executionFailed ("Payment execution failed: " ++ msg)), [simCall, exCall])
        | .ok res =>
          (.ok ⟨"success", res.transfer_id, res.transfer_id, res.transfer_id, res.tx_hash,
            req.amount, req.currency, "Payment processed successfully", idem⟩,
           [simCall, exCall])
      else
        (.error (.guardViolation
          ("Payment simulation failed: " ++ sim.reason.getD "Unknown error")), [simCall])

end Payments

namespace X402

/-! ### app/payments/adapters/__init__.py, class X402Adapter

The signed intent is a dict; `none` fields model absent keys.  The
EIP-712 encode-and-recover primitive (`encode_structured_data` plus
`Account.recover_message`) is an external cryptographic collaborator and
enters as the oracle field `recover` of the context; it receives exactly
the message payload the adapter builds (the domain fields are the fixed
constants below).  `time.time()` is the `now` argument.  Every raise
site gets its own error constructor; in the source the outer
`except` of `execute_intent` re-wraps each of them into
`PaymentError("X402 execution failed: ...")`, which relabels the message
but preserves which check failed. -/

/-- A received signed intent.  The dict key `to` is rendered here as
`toAddr` (`to` is reserved in Lean). -/
structure Intent where
  intentId : Option String
  fromAgent : Option String
  toAddr : Option String
  amount : Option String
  currency : Option String
  expiresAt : Option Nat
  nonce : Option String
  signature : Option String
deriving DecidableEq

/-- EIP-712 domain name (line 107). -/
def domainName : String := "OmniAgentPay"

/-- EIP-712 domain version (line 108). -/
def domainVersion : String := "1"

/-- EIP-712 chain id, ARC Testnet (line 109). -/
def chainId : Nat := 5042002

/-- The `message` payload of the structured data built by
`_verify_signature` (lines 111-119): the seven intent fields, with the
amount passed through `str()` and the currency defaulted to `"USD"`. -/
structure EIP712Message where
  intentId : Option String
  fromAgent : Option String
  toAddr : Option String
  amount : String
  currency : String
  expiresAt : Option Nat
  nonce : Option String
deriving DecidableEq

/-- Construction of the message payload from the intent. -/
def encodeMessage (i : Intent) : EIP712Message :=
  ⟨i.intentId, i.fromAgent, i.toAddr, pyStr i.amount, i.currency.getD "USD", i.expiresAt, i.nonce⟩

/-- Failure kinds of the adapter, one per raise site. -/
inductive X402Err where
  | signatureMissing
  | signatureInvalid (msg : String)
  | expiresAtMissing
  | intentExpired (expires_at now : Nat)
  | nonceMissing
  | nonceReplayed (nonce : String)
  | executionFailed (msg : String)
deriving DecidableEq

/-- Adapter configuration: the optional expected signer and the
signature-recovery oracle (`Except.error` models an exception from
encoding or recovery). -/
structure X402Ctx where
  signing_address : Option String
  recover : EIP712Message → String → Except String String

/-- Method `_verify_signature` (lines 70-142): missing or empty
signature is fatal; then the signer is recovered from the structured
payload, and when a non-empty expected signer is configured it must
match case-insensitively. -/
def verify_signature (ctx : X402Ctx) (i : Intent) : Except X402Err Unit :=
  match i.signature with
  | none => .error .signatureMissing
  | some sig =>
    if sig = "" then .error .signatureMissing
    else
      match ctx.recover (encodeMessage i) sig with
      | .error e => .error (.signatureInvalid ("Signature verification failed: " ++ e))
      | .ok signer =>
        match ctx.signing_address with
        | none => .ok ()
        | some expected =>
          if expected = "" then .ok ()
          else if asciiLower signer = asciiLower expected then .ok ()
          else .error (.signatureInvalid
            ("Invalid signer: expected " ++ expected ++ ", got " ++ signer))

/-- Method `_validate_expiry` (lines 144-162).  Python `if not
expires_at` treats both an absent key and the integer `0` as missing;
otherwise the intent is expired exactly when `current_time >
expires_at`. -/
def validate_expiry (i : Intent) (now : Nat) : Except X402Err Unit :=
  match i.expiresAt with
  | none => .error .expiresAtMissing
  | some e =>
    if e = 0 then .error .expiresAtMissing
    else if e < now then .error (.intentExpired e now) else .ok ()

/-- In-memory nonce cache and cleanup counter of the adapter instance.
The Python dict maps nonce strings to registration timestamps; it is
modelled as an association list in insertion order with unique keys. -/
structure X402State where
  nonce_cache : List (String × Nat)
  cleanup_counter : Nat
deriving DecidableEq

/-- Method `_cleanup_old_nonces` (lines 57-68): drop entries older than
one hour. -/
def cleanup_old_nonces (cache : List (String × Nat)) (now : Nat) : List (String × Nat) :=
  cache.filter (fun p => decide (now ≤ p.2 + 3600))

/-- Method `_check_nonce_replay` (lines 164-190): a missing or empty
nonce is fatal; a cached nonce is a replay; otherwise the nonce is
recorded, and every 1000th registration triggers the cleanup sweep. -/
def check_nonce_replay (s : X402State) (i : Intent) (now : Nat) :
    X402State × Except X402Err Unit :=
  match i.nonce with
  | none => (s, .error .nonceMissing)
  | some n =>
    if n = "" then (s, .error .nonceMissing)
    else if (s.nonce_cache.lookup n).isSome then (s, .error (.nonceReplayed n))
    else
      let cache1 := s.nonce_cache ++ [(n, now)]
      let cnt := s.cleanup_counter + 1
      if 1000 ≤ cnt then (⟨cleanup_old_nonces cache1 now, 0⟩, .ok ())
      else (⟨cache1, cnt⟩, .ok ())

/-- The colon-joined serialization of `_compute_intent_hash` (line 203);
absent fields print as `None` under the f-string. -/
def intent_str (i : Intent) : String :=
  pyStr i.intentId ++ ":" ++ pyStr i.fromAgent ++ ":" ++ pyStr i.toAddr ++ ":" ++
    pyStr i.amount ++ ":" ++ pyStr i.nonce

/-- Method `_compute_intent_hash` (lines 192-204):
`hashlib.sha256(intent_str.encode()).hexdigest()`. -/
def compute_intent_hash (i : Intent) : String :=
  SHA256.hexdigest (utf8Bytes (intent_str i))

/-- Dict returned by `client.execute_payment`; only `transfer_id` is
read by the adapter. -/
structure ExecPayResult where
  transfer_id : Option String
deriving DecidableEq

/-- Receipt dict assembled by `execute_intent` (lines 262-274); the
`from` key is rendered as `fromAgent`. -/
structure X402Receipt where
  status : String
  intentId : Option String
  intentHash : String
  txHash : String
  explorerUrl : String
  amount : String
  currency : String
  fromAgent : Option String
  toAddr : Option String
  mode : String
  message : String
deriving DecidableEq

/-- Method `execute_intent` (lines 206-286): signature, expiry and nonce
checks in that order, then the Circle execution (the oracle `backend`
models the awaited `client.execute_payment`, with `Except.error` a
raised exception), then the receipt. -/
def execute_intent (ctx : X402Ctx) (s : X402State) (i : Intent) (now : Nat)
    (backend : Except String ExecPayResult) : X402State × Except X402Err X402Receipt :=
  match verify_signature ctx i with
  | .error e => (s, .error e)
  | .ok _ =>
    match validate_expiry i now with
    | .error e => (s, .error e)
    | .ok _ =>
      match check_nonce_replay s i now with
      | (s1, .error e) => (s1, .error e)
      | (s1, .ok _) =>
        match backend with
        | .error msg => (s1, .error (.executionFailed ("X402 execution failed: " ++ msg)))
        | .ok res =>
          let tx := res.transfer_id.getD ""
          (s1, .ok ⟨"success", i.intentId, compute_intent_hash i, tx,
            "https://testnet.arcscan.app/tx/" ++ tx, pyStr i.amount, i.currency.getD "USD",
            i.fromAgent, i.toAddr, "x402", "X402 gasless payment executed successfully"⟩)

end X402

/-! ## Helper lemmas -/

theorem string_data_inj {s t : String} (h : s.data = t.data) : s = t := by
  cases s; cases t; exact congrArg String.mk h

theorem lookup_append_single {β : Type} (l : List (String × β)) (n : String) (t : β)
    (h : l.lookup n = none) : (l ++ [(n, t)]).lookup n = some t := by
  induction l with
  | nil => simp [List.lookup]
  | cons p l ih =>
    obtain ⟨k, v⟩ := p
    cases hk : n == k with
    | true => simp [List.lookup, hk] at h
    | false =>
      simp only [List.lookup, hk, List.cons_append] at h ⊢
      exact ih h

theorem lookup_filter_append {β : Type} (l : List (String × β)) (n : String) (t : β)
    (p : String × β → Bool) (h : l.lookup n = none) (hp : p (n, t) = true) :
    ((l ++ [(n, t)]).filter p).lookup n = some t := by
  induction l with
  | nil => simp [List.filter, hp, List.lookup]
  | cons q l ih =>
    obtain ⟨k, v⟩ := q
    cases hk : n == k with
    | true => simp [List.lookup, hk] at h
    | false =>
      simp only [List.lookup, hk] at h
      cases hpk : p (k, v) <;>
        simp only [List.cons_append, List.filter_cons, hpk, if_true, if_false,
          List.lookup, hk, ite_true, ite_false] <;>
        exact ih h

namespace RateLimit

theorem lookup_map_replace (k : String) (v : AbuseEntry) :
    ∀ l : List (String × AbuseEntry), (l.lookup k).isSome →
      (l.map (fun p => if p.1 == k then (k, v) else p)).lookup k = some v := by
  intro l
  induction l with
  | nil => intro h; simp [List.lookup] at h
  | cons p l ih =>
    intro h
    obtain ⟨k1, v1⟩ := p
    cases hk : k == k1 with
    | true =>
      have hq : k = k1 := by rwa [beq_iff_eq] at hk
      subst hq
      simp only [List.map_cons]
      rw [if_pos (by simp)]
      simp [List.lookup]
    | false =>
      have hk1 : (k1 == k) = false := by
        rw [beq_eq_false_iff_ne] at hk ⊢; exact fun hh => hk hh.symm
      simp only [List.lookup, hk] at h
      simp only [List.map_cons]
      rw [if_neg (by simp [hk1])]
      simp only [List.lookup, hk]
      exact ih h

theorem lookup_setKey_self (l : List (String × AbuseEntry)) (k : String) (v : AbuseEntry) :
    (setKey l k v).lookup k = some v := by
  unfold setKey
  by_cases hs : (l.lookup k).isSome
  · rw [if_pos hs]
    exact lookup_map_replace k v l hs
  · rw [if_neg hs]
    have hnone : l.lookup k = none := by
      cases h : l.lookup k with
      | none => rfl
      | some w => rw [h] at hs; simp at hs
    exact lookup_append_single l k v hnone

theorem trackKey_fresh (now : Nat) : trackKey none now = ⟨1, now, false⟩ := by
  simp only [trackKey, Option.getD_none]
  rw [if_neg (show ¬ (now + ABUSE_WINDOW_SECONDS < now) by omega)]
  simp [ABUSE_THRESHOLD_COUNT]

theorem trackKey_in_window (c w : Nat) (b : Bool) (now : Nat)
    (h : now ≤ w + ABUSE_WINDOW_SECONDS) :
    trackKey (some ⟨c, w, b⟩) now =
      ⟨c + 1, w, b || decide (ABUSE_THRESHOLD_COUNT ≤ c + 1)⟩ := by
  simp only [trackKey, Option.getD_some]
  rw [if_neg (show ¬ (w + ABUSE_WINDOW_SECONDS < now) by omega)]
  by_cases h50 : ABUSE_THRESHOLD_COUNT ≤ c + 1 <;> cases b <;> simp [h50]

theorem trackListOpt_closed (ts : List Nat) :
    ∀ e : AbuseEntry, (∀ t ∈ ts, t ≤ e.first_seen + ABUSE_WINDOW_SECONDS) →
      trackListOpt (some e) ts = some ⟨e.count + ts.length, e.first_seen,
        e.blocked || decide (1 ≤ ts.length ∧ ABUSE_THRESHOLD_COUNT ≤ e.count + ts.length)⟩ := by
  induction ts with
  | nil =>
    intro e h
    obtain ⟨c, w, b⟩ := e
    simp [trackListOpt]
  | cons t ts ih =>
    intro e h
    obtain ⟨c, w, b⟩ := e
    simp only at h
    have hstep : trackListOpt (some (⟨c, w, b⟩ : AbuseEntry)) (t :: ts) =
        trackListOpt (some (trackKey (some ⟨c, w, b⟩) t)) ts := rfl
    rw [hstep, trackKey_in_window c w b t (h t (by simp))]
    rw [ih _ (by intro x hx; exact h x (List.mem_cons_of_mem _ hx))]
    simp only [List.length_cons]
    have h2 : ((b || decide (ABUSE_THRESHOLD_COUNT ≤ c + 1)) ||
        decide (1 ≤ ts.length ∧ ABUSE_THRESHOLD_COUNT ≤ c + 1 + ts.length)) =
        (b || decide (1 ≤ ts.length + 1 ∧ ABUSE_THRESHOLD_COUNT ≤ c + (ts.length + 1))) := by
      cases b
      · simp only [Bool.false_or]
        rw [Bool.eq_iff_iff]
        simp only [Bool.or_eq_true, decide_eq_true_eq]
        omega
      · simp
    rw [h2, show c + 1 + ts.length = c + (ts.length + 1) by omega]

theorem runFailures_ip_lookup (k u : String) :
    ∀ (ts : List Nat) (tr : AbuseTracker),
      (runFailures tr k (some u) ts).ip.lookup k = trackListOpt (tr.ip.lookup k) ts := by
  intro ts
  induction ts with
  | nil => intro tr; rfl
  | cons t ts ih =>
    intro tr
    have h1 : runFailures tr k (some u) (t :: ts) =
        runFailures (track_failed_request tr k (some u) t) k (some u) ts := rfl
    have h2 : trackListOpt (tr.ip.lookup k) (t :: ts) =
        trackListOpt (some (trackKey (tr.ip.lookup k) t)) ts := rfl
    rw [h1, h2, ih]
    congr 1
    simp [track_failed_request, lookup_setKey_self]

theorem trackListOpt_from_none (t0 : Nat) (ts : List Nat)
    (hw : ∀ t ∈ ts, t ≤ t0 + ABUSE_WINDOW_SECONDS) :
    trackListOpt none (t0 :: ts) = some ⟨1 + ts.length, t0,
      decide (1 ≤ ts.length ∧ ABUSE_THRESHOLD_COUNT ≤ 1 + ts.length)⟩ := by
  have h1 : trackListOpt none (t0 :: ts) = trackListOpt (some (trackKey none t0)) ts := rfl
  rw [h1, trackKey_fresh, trackListOpt_closed ts ⟨1, t0, false⟩ hw]
  simp

theorem runFailures_user_lookup (k u : String) :
    ∀ (ts : List Nat) (tr : AbuseTracker),
      (runFailures tr k (some u) ts).user.lookup u = trackListOpt (tr.user.lookup u) ts := by
  intro ts
  induction ts with
  | nil => intro tr; rfl
  | cons t ts ih =>
    intro tr
    have h1 : runFailures tr k (some u) (t :: ts) =
        runFailures (track_failed_request tr k (some u) t) k (some u) ts := rfl
    have h2 : trackListOpt (tr.user.lookup u) (t :: ts) =
        trackListOpt (some (trackKey (tr.user.lookup u) t)) ts := rfl
    rw [h1, h2, ih]
    congr 1
    simp [track_failed_request, lookup_setKey_self]

/-- C3: for every client identity (an IP key and a user key) not yet
tracked, recording exactly 50 tracked failures within one 15-minute
window (all timestamps at most `t0 + ABUSE_WINDOW_SECONDS`) sets the
blocked flag of both of its entries to true, while recording only 49
such failures leaves both blocked flags false. -/
theorem abuse_threshold_boundary (tr : AbuseTracker) (k u : String) (t0 : Nat)
    (ts49 ts48 : List Nat)
    (hk : tr.ip.lookup k = none) (hu : tr.user.lookup u = none)
    (h49 : ts49.length = 49) (h48 : ts48.length = 48)
    (hw49 : ∀ t ∈ ts49, t ≤ t0 + ABUSE_WINDOW_SECONDS)
    (hw48 : ∀ t ∈ ts48, t ≤ t0 + ABUSE_WINDOW_SECONDS) :
    ((runFailures tr k (some u) (t0 :: ts49)).ip.lookup k = some ⟨50, t0, true⟩ ∧
     (runFailures tr k (some u) (t0 :: ts49)).user.lookup u = some ⟨50, t0, true⟩) ∧
    ((runFailures tr k (some u) (t0 :: ts48)).ip.lookup k = some ⟨49, t0, false⟩ ∧
     (runFailures tr k (some u) (t0 :: ts48)).user.lookup u = some ⟨49, t0, false⟩) := by
  refine ⟨⟨?_, ?_⟩, ?_, ?_⟩
  · rw [runFailures_ip_lookup, hk, trackListOpt_from_none t0 ts49 hw49, h49]
    simp [ABUSE_THRESHOLD_COUNT]
  · rw [runFailures_user_lookup, hu, trackListOpt_from_none t0 ts49 hw49, h49]
    simp [ABUSE_THRESHOLD_COUNT]
  · rw [runFailures_ip_lookup, hk, trackListOpt_from_none t0 ts48 hw48, h48]
    simp [ABUSE_THRESHOLD_COUNT]
  · rw [runFailures_user_lookup, hu, trackListOpt_from_none t0 ts48 hw48, h48]
    simp [ABUSE_THRESHOLD_COUNT]

/-- Witness for C3: an untracked identity, 50 failures at time 0 block
both keys; 49 do not. -/
theorem abuse_threshold_boundary_witness :
    ((⟨[], []⟩ : AbuseTracker).ip.lookup "203.0.113.9" = none) ∧
    (runFailures ⟨[], []⟩ "203.0.113.9" (some "user-7") (0 :: List.replicate 49 0)).ip.lookup
      "203.0.113.9" = some ⟨50, 0, true⟩ ∧
    (runFailures ⟨[], []⟩ "203.0.113.9" (some "user-7") (0 :: List.replicate 48 0)).user.lookup
      "user-7" = some ⟨49, 0, false⟩ := by
  have h := abuse_threshold_boundary ⟨[], []⟩ "203.0.113.9" "user-7" 0
    (List.replicate 49 0) (List.replicate 48 0) rfl rfl (by simp) (by simp)
    (by intro t ht; rw [List.eq_of_mem_replicate ht]; omega)
    (by intro t ht; rw [List.eq_of_mem_replicate ht]; omega)
  exact ⟨rfl, h.1.1, h.2.2⟩

/-- C8 is false of the code: `block_client` spawns an independent,
unconditional deferred unblock per call.  Here a block at time 0 for 10
seconds is followed by a block at time 1 for 100 seconds; the first
task fires at time 10 and clears the flag although the most recently
scheduled deadline is 101 > 10, so the blocked flag does not survive
until the latest deadline. -/
theorem block_client_earliest_unblock_counterexample :
    block_client (block_client ⟨false, []⟩ 0 10) 1 100 = ⟨true, [101, 10]⟩ ∧
    fire_unblock ⟨true, [101, 10]⟩ 10 = ⟨false, [101]⟩ ∧
    10 < 101 := by
  refine ⟨rfl, ?_, by omega⟩
  simp [fire_unblock, List.erase]

/-- C8 amended: each `block_client` call schedules an independent
deferred unblock, and firing any outstanding unblock task clears the
blocked flag unconditionally — even when a strictly later deadline is
still outstanding (which remains pending).  The flag is therefore
cleared at the earliest outstanding deadline, not the latest. -/
theorem fire_unblock_unconditional (s : BlockedKeyState) (d d' now dur : Nat)
    (hd : d ∈ s.pendingUnblocks) (hd' : d' ∈ s.pendingUnblocks) (hlt : d < d') :
    (block_client s now dur).blocked = true ∧
    (fire_unblock s d).blocked = false ∧
    d' ∈ (fire_unblock s d).pendingUnblocks := by
  refine ⟨rfl, rfl, ?_⟩
  exact (List.mem_erase_of_ne (show d' ≠ d by omega)).mpr hd'

/-- Witness for the amended C8: with tasks outstanding for deadlines 10
and 101, firing the earlier one clears the flag while 101 stays
pending. -/
theorem fire_unblock_unconditional_witness :
    (fire_unblock ⟨true, [101, 10]⟩ 10).blocked = false ∧
    101 ∈ (fire_unblock ⟨true, [101, 10]⟩ 10).pendingUnblocks := by
  have h := fire_unblock_unconditional ⟨true, [101, 10]⟩ 10 101 0 5
    (by simp) (by simp) (by omega)
  exact ⟨h.2.1, h.2.2⟩

end RateLimit

namespace Payments

theorem validate_amount_ok (a w : String) (h : validate_amount a = .ok w) :
    w = a ∧ ∃ f, parseFloat a = some f ∧ pyLeZero f = false := by
  unfold validate_amount at h
  split at h
  · cases h
  next f hp =>
    split at h
    · cases h
    next hle =>
      injection h with h2
      exact ⟨h2.symm, f, hp, by simpa using hle⟩

theorem buildRequest_ok_spec (r : RawRequest) (req : PaymentRequest)
    (h : buildRequest r = .ok req) :
    r.from_wallet_id = some req.from_wallet_id ∧ r.amount = some req.amount ∧
      validate_amount req.amount = .ok req.amount := by
  unfold buildRequest at h
  split at h
  · cases h
  next fw hfw =>
    split at h
    · cases h
    next ta hta =>
      split at h
      · cases h
      next am ham =>
        split at h
        · cases h
        next amv hva =>
          injection h with h2
          subst h2
          obtain ⟨hav, -⟩ := validate_amount_ok am amv hva
          subst hav
          exact ⟨hfw, ham, hva⟩

/-- C5 is false as stated: a direct-payment request whose
`from_wallet_id` is a raw 40-hex-digit address but whose amount is
`"-5"` fails structural validation first, so `pay` raises the
client-input error, not the wallet-policy error (no simulation happens
either way). -/
theorem privy_wallet_policy_counterexample :
    matchesPrivyPattern "0xaaaaaaaaaaaaaaaaaaaaaaaaaaaaaaaaaaaaaaaa" = true ∧
    pay ⟨some "success", some true, none⟩ (.ok ⟨some "t1", some "h1"⟩) "key-1"
      ⟨some "0xaaaaaaaaaaaaaaaaaaaaaaaaaaaaaaaaaaaaaaaa", some "dest-addr", some "-5", none, none⟩ =
      (.error (.invalidInput "Amount must be a valid numeric string"), []) ∧
    (pay ⟨some "success", some true, none⟩ (.ok ⟨some "t1", some "h1"⟩) "key-1"
      ⟨some "0xaaaaaaaaaaaaaaaaaaaaaaaaaaaaaaaaaaaaaaaa", some "dest-addr", some "-5", none, none⟩).1 ≠
      .error .walletPolicy := by
  refine ⟨by decide, by decide, by decide⟩

/-- C5 amended: for every direct-payment request whose `from_wallet_id`
matches the raw address pattern, `pay` fails and never issues any
backend call; the failure is the wallet-policy error whenever the
request passes structural validation (otherwise it is the structural
validation error). -/
theorem privy_wallet_rejected_before_simulation (sim : SimResult)
    (ex : Except String ExecResult) (idem : String) (r : RawRequest) (fw : String)
    (hfw : r.from_wallet_id = some fw) (hp : matchesPrivyPattern fw = true) :
    (pay sim ex idem r).2 = [] ∧
    (∃ e, (pay sim ex idem r).1 = .error e) ∧
    (∀ req : PaymentRequest, buildRequest r = .ok req →
      (pay sim ex idem r).1 = .error .walletPolicy) := by
  cases hb : buildRequest r with
  | error e =>
    have hpay : pay sim ex idem r = (.error (.invalidInput e), []) := by
      simp only [pay, hb]
    rw [hpay]
    refine ⟨rfl, ⟨.invalidInput e, rfl⟩, ?_⟩
    intro req hok
    cases hok
  | ok req0 =>
    have hfw2 : matchesPrivyPattern req0.from_wallet_id = true := by
      have h1 := (buildRequest_ok_spec r req0 hb).1
      rw [hfw] at h1
      injection h1 with h2
      rw [← h2]
      exact hp
    have hpay : pay sim ex idem r = (.error .walletPolicy, []) := by
      simp only [pay, hb]
      rw [if_pos hfw2]
    rw [hpay]
    exact ⟨rfl, ⟨.walletPolicy, rfl⟩, fun _ _ => rfl⟩

/-- Witness for the amended C5: a raw-address wallet id with an
otherwise valid request is rejected with the wallet-policy error and no
backend call. -/
theorem privy_wallet_rejected_witness :
    (pay ⟨some "success", some true, none⟩ (.ok ⟨some "t1", some "h1"⟩) "key-1"
      ⟨some "0xbbbbbbbbbbbbbbbbbbbbbbbbbbbbbbbbbbbbbbbb", some "dest-addr", some "7", none, none⟩).2
      = [] ∧
    (pay ⟨some "success", some true, none⟩ (.ok ⟨some "t1", some "h1"⟩) "key-1"
      ⟨some "0xbbbbbbbbbbbbbbbbbbbbbbbbbbbbbbbbbbbbbbbb", some "dest-addr", some "7", none, none⟩).1
      = .error .walletPolicy := by
  have h := privy_wallet_rejected_before_simulation ⟨some "success", some true, none⟩
    (.ok ⟨some "t1", some "h1"⟩) "key-1"
    ⟨some "0xbbbbbbbbbbbbbbbbbbbbbbbbbbbbbbbbbbbbbbbb", some "dest-addr", some "7", none, none⟩
    "0xbbbbbbbbbbbbbbbbbbbbbbbbbbbbbbbbbbbbbbbb" rfl (by decide)
  exact ⟨h.1, h.2.2 ⟨"0xbbbbbbbbbbbbbbbbbbbbbbbbbbbbbbbbbbbbbbbb", "dest-addr", "7", "USD", none⟩
    (by decide)⟩

/-- C6: the external execute call is issued only when the simulation
oracle reported status `success` with a truthy `validation_passed`;
whenever a structurally valid, policy-passing request meets a
simulation result lacking either, `pay` fails with the guard-violation
error carrying the stated simulation reason (defaulted when absent);
and such a request always issues the simulate call (simulation is never
skipped). -/
theorem simulation_gates_execution (sim : SimResult) (ex : Except String ExecResult)
    (idem : String) (r : RawRequest) :
    (∀ fw ta am cur dest, BackendCall.executeCall fw ta am cur dest ∈ (pay sim ex idem r).2 →
      sim.status = some "success" ∧ truthyOptBool sim.validation_passed = true) ∧
    (∀ req : PaymentRequest, buildRequest r = .ok req →
      matchesPrivyPattern req.from_wallet_id = false →
      BackendCall.simulateCall req.from_wallet_id req.to_address req.amount req.currency
        req.destination_chain ∈ (pay sim ex idem r).2) ∧
    (∀ req : PaymentRequest, buildRequest r = .ok req →
      matchesPrivyPattern req.from_wallet_id = false →
      ¬(sim.status = some "success" ∧ truthyOptBool sim.validation_passed = true) →
      (pay sim ex idem r).1 = .error (.guardViolation
        ("Payment simulation failed: " ++ sim.reason.getD "Unknown error"))) := by
  cases hb : buildRequest r with
  | error e =>
    have hpay : pay sim ex idem r = (.error (.invalidInput e), []) := by
      simp only [pay, hb]
    rw [hpay]
    refine ⟨?_, ?_, ?_⟩
    · intro fw ta am cur dest hmem
      simp at hmem
    · intro req hok _
      cases hok
    · intro req hok _ _
      cases hok
  | ok req0 =>
    by_cases hpv : matchesPrivyPattern req0.from_wallet_id = true
    · have hpay : pay sim ex idem r = (.error .walletPolicy, []) := by
        simp only [pay, hb]
        rw [if_pos hpv]
      rw [hpay]
      refine ⟨?_, ?_, ?_⟩
      · intro fw ta am cur dest hmem
        simp at hmem
      · intro req hok hnp
        injection hok with h2
        subst h2
        rw [hpv] at hnp
        cases hnp
      · intro req hok hnp _
        injection hok with h2
        subst h2
        rw [hpv] at hnp
        cases hnp
    · have hpv' : matchesPrivyPattern req0.from_wallet_id = false := by
        simpa using hpv
      by_cases hc : (sim.status == some "success" && truthyOptBool sim.validation_passed) = true
      · have hc' := hc
        simp only [Bool.and_eq_true] at hc'
        have hgood : sim.status = some "success" ∧ truthyOptBool sim.validation_passed = true :=
          ⟨by have := hc'.1; rwa [beq_iff_eq] at this, hc'.2⟩
        cases ex with
        | error msg =>
          have hpay : pay sim (.error msg) idem r =
              (.error (.executionFailed ("Payment execution failed: " ++ msg)),
               [BackendCall.simulateCall req0.from_wallet_id req0.to_address req0.amount
                  req0.currency req0.destination_chain,
                BackendCall.executeCall req0.from_wallet_id req0.to_address req0.amount
                  req0.currency req0.destination_chain]) := by
            simp only [pay, hb]
            rw [if_neg (by simp [hpv']), if_pos hc]
          rw [hpay]
          refine ⟨fun _ _ _ _ _ _ => hgood, ?_, fun _ _ _ hbad => absurd hgood hbad⟩
          intro req hok _
          injection hok with h2
          subst h2
          simp
        | ok res =>
          have hpay : pay sim (.ok res) idem r =
              (.ok ⟨"success", res.transfer_id, res.transfer_id, res.transfer_id, res.tx_hash,
                req0.amount, req0.currency, "Payment processed successfully", idem⟩,
               [BackendCall.simulateCall req0.from_wallet_id req0.to_address req0.amount
                  req0.currency req0.destination_chain,
                BackendCall.executeCall req0.from_wallet_id req0.to_address req0.amount
                  req0.currency req0.destination_chain]) := by
            simp only [pay, hb]
            rw [if_neg (by simp [hpv']), if_pos hc]
          rw [hpay]
          refine ⟨fun _ _ _ _ _ _ => hgood, ?_, fun _ _ _ hbad => absurd hgood hbad⟩
          intro req hok _
          injection hok with h2
          subst h2
          simp
      · have hpay : pay sim ex idem r =
            (.error (.guardViolation
              ("Payment simulation failed: " ++ sim.reason.getD "Unknown error")),
             [BackendCall.simulateCall req0.from_wallet_id req0.to_address req0.amount
                req0.currency req0.destination_chain]) := by
          simp only [pay, hb]
          rw [if_neg (by simp [hpv']), if_neg hc]
        rw [hpay]
        refine ⟨?_, ?_, ?_⟩
        · intro fw ta am cur dest hmem
          simp at hmem
        · intro req hok _
          injection hok with h2
          subst h2
          simp
        · intro req hok _ _
          rfl

/-- Witness for C6: a simulation result with a non-success status makes
`pay` fail with the guard violation carrying the stated reason, after
having issued exactly the simulate call. -/
theorem simulation_gates_execution_witness :
    BackendCall.simulateCall "wallet-1" "0xrecipient" "10.50" "USD" none ∈
      (pay ⟨some "failed", some true, some "guard denied"⟩ (.ok ⟨some "t", some "h"⟩) "key"
        ⟨some "wallet-1", some "0xrecipient", some "10.50", none, none⟩).2 ∧
    (pay ⟨some "failed", some true, some "guard denied"⟩ (.ok ⟨some "t", some "h"⟩) "key"
      ⟨some "wallet-1", some "0xrecipient", some "10.50", none, none⟩).1 =
      .error (.guardViolation ("Payment simulation failed: " ++
        (some "guard denied" : Option String).getD "Unknown error")) := by
  have h := simulation_gates_execution ⟨some "failed", some true, some "guard denied"⟩
    (.ok ⟨some "t", some "h"⟩) "key" ⟨some "wallet-1", some "0xrecipient", some "10.50", none, none⟩
  exact ⟨h.2.1 ⟨"wallet-1", "0xrecipient", "10.50", "USD", none⟩ (by decide) (by decide),
    h.2.2 ⟨"wallet-1", "0xrecipient", "10.50", "USD", none⟩ (by decide) (by decide) (by decide)⟩

/-- C7: every request whose amount string is non-numeric (the parse
fails) or parses to a non-positive value fails `pay` with the
client-input error kind, and no backend call (simulate or execute) is
ever issued. -/
theorem invalid_amount_rejected_before_backend (sim : SimResult)
    (ex : Except String ExecResult) (idem : String) (r : RawRequest) (a : String)
    (ha : r.amount = some a)
    (hbad : parseFloat a = none ∨ ∃ f, parseFloat a = some f ∧ pyLeZero f = true) :
    (∃ m, (pay sim ex idem r).1 = .error (.invalidInput m)) ∧ (pay sim ex idem r).2 = [] := by
  cases hb : buildRequest r with
  | error e =>
    have hpay : pay sim ex idem r = (.error (.invalidInput e), []) := by
      simp only [pay, hb]
    rw [hpay]
    exact ⟨⟨e, rfl⟩, rfl⟩
  | ok req =>
    exfalso
    obtain ⟨-, h2, h3⟩ := buildRequest_ok_spec r req hb
    rw [ha] at h2
    injection h2 with h2'
    obtain ⟨-, f, hf, hle⟩ := validate_amount_ok req.amount req.amount h3
    rw [← h2'] at hf
    rcases hbad with hn | ⟨g, hg, hgle⟩
    · rw [hn] at hf; cases hf
    · rw [hg] at hf
      injection hf with hf'
      subst hf'
      rw [hle] at hgle
      cases hgle

/-- Witness for C7: amount `"-5"` is rejected with the client-input
error before any backend call. -/
theorem invalid_amount_rejected_witness :
    (∃ m, (pay ⟨some "success", some true, none⟩ (.ok ⟨some "t", some "h"⟩) "key"
      ⟨some "wallet-1", some "0xrecipient", some "-5", none, none⟩).1 =
        .error (.invalidInput m)) ∧
    (pay ⟨some "success", some true, none⟩ (.ok ⟨some "t", some "h"⟩) "key"
      ⟨some "wallet-1", some "0xrecipient", some "-5", none, none⟩).2 = [] :=
  invalid_amount_rejected_before_backend ⟨some "success", some true, none⟩
    (.ok ⟨some "t", some "h"⟩) "key" ⟨some "wallet-1", some "0xrecipient", some "-5", none, none⟩
    "-5" rfl (Or.inr ⟨.finite (decValue true 5 0), by decide, by decide⟩)

end Payments

namespace X402

/-- Registering a fresh nonce: when the nonce is present, non-empty and
not cached, `_check_nonce_replay` succeeds and the nonce is afterwards
cached with the current timestamp (whether or not the periodic cleanup
sweep runs). -/
theorem check_nonce_registers (s : X402State) (i : Intent) (now : Nat) (n : String)
    (hn : i.nonce = some n) (hne : n ≠ "") (hfresh : s.nonce_cache.lookup n = none) :
    ∃ s1 : X402State, check_nonce_replay s i now = (s1, .ok ()) ∧
      s1.nonce_cache.lookup n = some now := by
  simp only [check_nonce_replay, hn]
  rw [if_neg hne, if_neg (by rw [hfresh]; simp)]
  by_cases hcl : 1000 ≤ s.cleanup_counter + 1
  · rw [if_pos hcl]
    refine ⟨_, rfl, ?_⟩
    unfold cleanup_old_nonces
    exact lookup_filter_append _ n now _ hfresh (by simp)
  · rw [if_neg hcl]
    exact ⟨_, rfl, lookup_append_single _ n now hfresh⟩

/-- A cached nonce is rejected by `_check_nonce_replay` with the
nonce-replay error, and the state is left unchanged. -/
theorem check_nonce_rejects (s : X402State) (i : Intent) (now : Nat) (n : String)
    (hn : i.nonce = some n) (hne : n ≠ "") (hhit : (s.nonce_cache.lookup n).isSome = true) :
    check_nonce_replay s i now = (s, .error (.nonceReplayed n)) := by
  simp only [check_nonce_replay, hn]
  rw [if_neg hne, if_pos hhit]

/-- C2: when signature verification fails, or signature verification
passes but expiry validation fails, `execute_intent` returns that error
and the adapter state — in particular the nonce cache — is exactly the
state before the call, so the nonce of the rejected intent was not
consumed. -/
theorem failed_check_preserves_state (ctx : X402Ctx) (s : X402State) (i : Intent)
    (now : Nat) (backend : Except String ExecPayResult) (e : X402Err)
    (h : verify_signature ctx i = .error e ∨
      (verify_signature ctx i = .ok () ∧ validate_expiry i now = .error e)) :
    execute_intent ctx s i now backend = (s, .error e) := by
  unfold execute_intent
  rcases h with h1 | ⟨h1, h2⟩
  · rw [h1]
  · rw [h1, h2]

/-- Witness for C2: an intent with a missing signature leaves a
non-trivial nonce cache untouched. -/
theorem failed_check_preserves_state_witness :
    execute_intent ⟨none, fun _ _ => .ok "0xabc"⟩ ⟨[("n0", 3)], 7⟩
      ⟨some "id", some "w", some "t", some "5", none, some 50, some "n1", none⟩ 10
      (.ok ⟨some "tx"⟩) = (⟨[("n0", 3)], 7⟩, .error .signatureMissing) :=
  failed_check_preserves_state ⟨none, fun _ _ => .ok "0xabc"⟩ ⟨[("n0", 3)], 7⟩
    ⟨some "id", some "w", some "t", some "5", none, some 50, some "n1", none⟩ 10
    (.ok ⟨some "tx"⟩) .signatureMissing (Or.inl (by decide))

/-- C4 is false as stated at the boundary input `expiresAt = 0`,
`now = 0`: the claim asserts that `now = expiresAt` is accepted, but the
Python falsiness check `if not expires_at` treats the integer 0 like an
absent field and rejects the intent as missing its expiry. -/
theorem expiry_zero_boundary_counterexample :
    (⟨some "i", some "f", some "t", some "1", none, some 0, some "n", some "sig"⟩ :
      Intent).expiresAt = some 0 ∧
    validate_expiry ⟨some "i", some "f", some "t", some "1", none, some 0, some "n", some "sig"⟩
      0 = .error .expiresAtMissing := by
  exact ⟨rfl, rfl⟩

/-- C4 amended: for a present and nonzero `expiresAt`, the boundary
`now = expiresAt` (indeed any `now ≤ expiresAt`) is accepted, and the
intent-expired error is returned exactly when `now` strictly exceeds
`expiresAt`; an absent `expiresAt` — and, by Python falsiness, a zero
one — is rejected as missing. -/
theorem expiry_boundary (i : Intent) (now : Nat) :
    (i.expiresAt = none → validate_expiry i now = .error .expiresAtMissing) ∧
    (∀ e : Nat, i.expiresAt = some e → 0 < e →
      ((now ≤ e → validate_expiry i now = .ok ()) ∧
       (e < now → validate_expiry i now = .error (.intentExpired e now)))) := by
  constructor
  · intro h
    unfold validate_expiry
    rw [h]
  · intro e he hpos
    constructor
    · intro hle
      simp only [validate_expiry, he]
      rw [if_neg (by omega), if_neg (by omega)]
    · intro hlt
      simp only [validate_expiry, he]
      rw [if_neg (by omega), if_pos hlt]

/-- Witness for the amended C4: `expiresAt = 5` is accepted at
`now = 5`, expired at `now = 6`, and an absent expiry is rejected. -/
theorem expiry_boundary_witness :
    validate_expiry ⟨some "i", some "f", some "t", some "1", none, some 5, some "n", some "s"⟩ 5 =
      .ok () ∧
    validate_expiry ⟨some "i", some "f", some "t", some "1", none, some 5, some "n", some "s"⟩ 6 =
      .error (.intentExpired 5 6) ∧
    validate_expiry ⟨some "i", some "f", some "t", some "1", none, none, some "n", some "s"⟩ 9 =
      .error .expiresAtMissing := by
  refine ⟨?_, ?_, ?_⟩
  · exact ((expiry_boundary _ 5).2 5 rfl (by omega)).1 (by omega)
  · exact ((expiry_boundary _ 6).2 5 rfl (by omega)).2 (by omega)
  · exact (expiry_boundary _ 9).1 rfl

/-- C1 is false as stated: after a first successful call consumes nonce
`n1`, a subsequent call bearing the same nonce `n1` but a missing
signature fails with the signature error, not the nonce-replay error —
so the outcome of a subsequent call is not independent of the other
intent fields (signature verification runs before the nonce check). -/
theorem nonce_replay_error_kind_counterexample :
    execute_intent ⟨none, fun _ _ => .ok "0xsigner"⟩ ⟨[], 0⟩
      ⟨some "id1", some "w1", some "0xdead", some "10", none, some 100, some "n1", some "0xsig"⟩
      10 (.ok ⟨some "tx1"⟩) =
      (⟨[("n1", 10)], 1⟩, .ok ⟨"success", some "id1",
        compute_intent_hash ⟨some "id1", some "w1", some "0xdead", some "10", none, some 100,
          some "n1", some "0xsig"⟩,
        "tx1", "https://testnet.arcscan.app/tx/tx1", "10", "USD", some "w1", some "0xdead",
        "x402", "X402 gasless payment executed successfully"⟩) ∧
    execute_intent ⟨none, fun _ _ => .ok "0xsigner"⟩ ⟨[("n1", 10)], 1⟩
      ⟨some "id2", some "w1", some "0xdead", some "10", none, some 100, some "n1", none⟩
      11 (.ok ⟨some "tx2"⟩) = (⟨[("n1", 10)], 1⟩, .error .signatureMissing) := by
  exact ⟨rfl, rfl⟩

/-- C1 amended: the first `execute_intent` call bearing a fresh nonce
that passes the signature and expiry checks succeeds when the backend
reports success, registering the nonce; and every subsequent call
bearing that nonce that again passes the signature and expiry checks
fails with the nonce-replay error (leaving the state unchanged, so this
holds for an arbitrary run of such calls). -/
theorem first_use_succeeds_replay_rejected (ctx : X402Ctx) (s : X402State) (i1 i2 : Intent)
    (now1 now2 : Nat) (res : ExecPayResult) (backend2 : Except String ExecPayResult)
    (n : String)
    (hn1 : i1.nonce = some n) (hne : n ≠ "")
    (hfresh : s.nonce_cache.lookup n = none)
    (hsig1 : verify_signature ctx i1 = .ok ()) (hexp1 : validate_expiry i1 now1 = .ok ())
    (hn2 : i2.nonce = some n)
    (hsig2 : verify_signature ctx i2 = .ok ()) (hexp2 : validate_expiry i2 now2 = .ok ()) :
    ∃ s1 : X402State,
      execute_intent ctx s i1 now1 (.ok res) = (s1, .ok ⟨"success", i1.intentId,
        compute_intent_hash i1, res.transfer_id.getD "",
        "https://testnet.arcscan.app/tx/" ++ res.transfer_id.getD "", pyStr i1.amount,
        i1.currency.getD "USD", i1.fromAgent, i1.toAddr, "x402",
        "X402 gasless payment executed successfully"⟩) ∧
      s1.nonce_cache.lookup n = some now1 ∧
      execute_intent ctx s1 i2 now2 backend2 = (s1, .error (.nonceReplayed n)) := by
  obtain ⟨s1, hnc1, hs1⟩ := check_nonce_registers s i1 now1 n hn1 hne hfresh
  refine ⟨s1, ?_, hs1, ?_⟩
  · simp only [execute_intent, hsig1, hexp1, hnc1]
  · have hnc2 : check_nonce_replay s1 i2 now2 = (s1, .error (.nonceReplayed n)) :=
      check_nonce_rejects s1 i2 now2 n hn2 hne (by rw [hs1]; rfl)
    simp only [execute_intent, hsig2, hexp2, hnc2]

/-- Witness for the amended C1: a concrete first call succeeds and
registers nonce `nA`; the concrete replay with the same nonce (valid
signature and expiry) is rejected as a replay. -/
theorem first_use_succeeds_replay_rejected_witness :
    verify_signature ⟨none, fun _ _ => .ok "0xs"⟩
      ⟨some "idA", some "w1", some "0xd", some "5", none, some 100, some "nA", some "sigA"⟩ =
      .ok () ∧
    (∃ s1 : X402State,
      execute_intent ⟨none, fun _ _ => .ok "0xs"⟩ ⟨[], 0⟩
        ⟨some "idA", some "w1", some "0xd", some "5", none, some 100, some "nA", some "sigA"⟩
        10 (.ok ⟨some "txA"⟩) = (s1, .ok ⟨"success", some "idA",
          compute_intent_hash ⟨some "idA", some "w1", some "0xd", some "5", none, some 100,
            some "nA", some "sigA"⟩, (some "txA" : Option String).getD "",
          "https://testnet.arcscan.app/tx/" ++ (some "txA" : Option String).getD "",
          pyStr (some "5"), (none : Option String).getD "USD", some "w1", some "0xd", "x402",
          "X402 gasless payment executed successfully"⟩) ∧
      s1.nonce_cache.lookup "nA" = some 10 ∧
      execute_intent ⟨none, fun _ _ => .ok "0xs"⟩ s1
        ⟨some "idB", some "w1", some "0xd", some "7", none, some 100, some "nA", some "sigB"⟩
        20 (.ok ⟨some "txB"⟩) = (s1, .error (.nonceReplayed "nA"))) := by
  refine ⟨by decide, ?_⟩
  exact first_use_succeeds_replay_rejected ⟨none, fun _ _ => .ok "0xs"⟩ ⟨[], 0⟩
    ⟨some "idA", some "w1", some "0xd", some "5", none, some 100, some "nA", some "sigA"⟩
    ⟨some "idB", some "w1", some "0xd", some "7", none, some 100, some "nA", some "sigB"⟩
    10 20 ⟨some "txA"⟩ (.ok ⟨some "txB"⟩) "nA" rfl (by decide) rfl (by decide) (by decide)
    rfl (by decide) (by decide)

/-- C10: when the nonce check passes but the backend execute call
fails, the error path does not remove the registered nonce: the nonce
stays cached, and retrying the same intent (which again passes the
signature and expiry checks) is rejected as a nonce replay although no
funds moved. -/
theorem nonce_kept_after_backend_failure (ctx : X402Ctx) (s : X402State) (i : Intent)
    (now1 now2 : Nat) (msg : String) (backend2 : Except String ExecPayResult) (n : String)
    (hn : i.nonce = some n) (hne : n ≠ "")
    (hfresh : s.nonce_cache.lookup n = none)
    (hsig : verify_signature ctx i = .ok ())
    (hexp1 : validate_expiry i now1 = .ok ()) (hexp2 : validate_expiry i now2 = .ok ()) :
    ∃ s1 : X402State,
      execute_intent ctx s i now1 (.error msg) =
        (s1, .error (.executionFailed ("X402 execution failed: " ++ msg))) ∧
      s1.nonce_cache.lookup n = some now1 ∧
      execute_intent ctx s1 i now2 backend2 = (s1, .error (.nonceReplayed n)) := by
  obtain ⟨s1, hnc1, hs1⟩ := check_nonce_registers s i now1 n hn hne hfresh
  refine ⟨s1, ?_, hs1, ?_⟩
  · simp only [execute_intent, hsig, hexp1, hnc1]
  · have hnc2 : check_nonce_replay s1 i now2 = (s1, .error (.nonceReplayed n)) :=
      check_nonce_rejects s1 i now2 n hn hne (by rw [hs1]; rfl)
    simp only [execute_intent, hsig, hexp2, hnc2]

/-- Witness for C10: a backend failure wraps the error, keeps the nonce
registered, and the concrete retry of the very same intent is rejected
as a replay. -/
theorem nonce_kept_after_backend_failure_witness :
    ∃ s1 : X402State,
      execute_intent ⟨none, fun _ _ => .ok "0xs"⟩ ⟨[], 0⟩
        ⟨some "idC", some "w2", some "0xe", some "9", none, some 200, some "nC", some "sigC"⟩
        50 (.error "Circle transfer rejected") =
        (s1, .error (.executionFailed ("X402 execution failed: " ++ "Circle transfer rejected"))) ∧
      s1.nonce_cache.lookup "nC" = some 50 ∧
      execute_intent ⟨none, fun _ _ => .ok "0xs"⟩ s1
        ⟨some "idC", some "w2", some "0xe", some "9", none, some 200, some "nC", some "sigC"⟩
        60 (.ok ⟨some "txC"⟩) = (s1, .error (.nonceReplayed "nC")) :=
  nonce_kept_after_backend_failure ⟨none, fun _ _ => .ok "0xs"⟩ ⟨[], 0⟩
    ⟨some "idC", some "w2", some "0xe", some "9", none, some 200, some "nC", some "sigC"⟩
    50 60 "Circle transfer rejected" (.ok ⟨some "txC"⟩) "nC" rfl (by decide) rfl (by decide)
    (by decide) (by decide)

end X402

namespace SHA256

theorem w32_lt (x : Nat) : w32 x < 4294967296 :=
  Nat.mod_lt _ (by norm_num)

theorem horner_step {a b M : Nat} (ha : a < M) (hb : b < 4294967296) :
    a * 4294967296 + b < M * 4294967296 := by
  calc a * 4294967296 + b < a * 4294967296 + 4294967296 := by omega
  _ = (a + 1) * 4294967296 := by ring
  _ ≤ M * 4294967296 := Nat.mul_le_mul_right _ ha

theorem combineH_lt (hv : Hash8) : combineH hv < 2 ^ 256 := by
  unfold combineH
  have h1 := w32_lt hv.a
  have h2 := horner_step h1 (w32_lt hv.b)
  have h3 := horner_step h2 (w32_lt hv.c)
  have h4 := horner_step h3 (w32_lt hv.d)
  have h5 := horner_step h4 (w32_lt hv.e)
  have h6 := horner_step h5 (w32_lt hv.f)
  have h7 := horner_step h6 (w32_lt hv.g)
  have h8 := horner_step h7 (w32_lt hv.h)
  calc _ < 4294967296 * 4294967296 * 4294967296 * 4294967296 * 4294967296 * 4294967296 *
      4294967296 * 4294967296 := h8
  _ = 2 ^ 256 := by norm_num

theorem digestNat_lt (msg : List Nat) : digestNat msg < 2 ^ 256 :=
  combineH_lt _

end SHA256

namespace X402

/-- C9 is false in its single-field-change half: SHA-256 has a finite
range, so among the infinitely many intents that differ only in
`intentId` two must share a digest.  The witnesses are obtained by
pigeonhole; no explicit colliding pair is known, but the claim, which
asserts a different fingerprint for every single-field change, is
thereby refuted. -/
theorem intent_hash_collision_exists :
    ∃ i1 i2 : Intent, i1.fromAgent = i2.fromAgent ∧ i1.toAddr = i2.toAddr ∧
      i1.amount = i2.amount ∧ i1.nonce = i2.nonce ∧ i1.intentId ≠ i2.intentId ∧
      compute_intent_hash i1 = compute_intent_hash i2 := by
  classical
  obtain ⟨k1, k2, hk, heq⟩ := Finite.exists_ne_map_eq_of_infinite
    (fun k : Nat =>
      (⟨SHA256.digestNat (utf8Bytes (intent_str
          ⟨some (String.mk (List.replicate k 'a')), some "w", some "t", some "1", none, some 1,
            some "nc", some "sg"⟩)),
        SHA256.digestNat_lt _⟩ : Fin (2 ^ 256)))
  refine ⟨⟨some (String.mk (List.replicate k1 'a')), some "w", some "t", some "1", none, some 1,
      some "nc", some "sg"⟩,
    ⟨some (String.mk (List.replicate k2 'a')), some "w", some "t", some "1", none, some 1,
      some "nc", some "sg"⟩, rfl, rfl, rfl, rfl, ?_, ?_⟩
  · intro hid
    apply hk
    injection hid with h2
    have h3 : List.replicate k1 'a' = List.replicate k2 'a' := congrArg String.data h2
    have h4 := congrArg List.length h3
    simpa using h4
  · have hval := congrArg Fin.val heq
    simp only at hval
    unfold compute_intent_hash SHA256.hexdigest
    rw [hval]

/-- C9 amended: the fingerprint is a deterministic function of the
tuple `(intentId, fromAgent, to, amount, nonce)`; and changing any
single one of those five fields — meaning its `str()` rendering
changes, the others fixed — changes the colon-joined digest input
string (hence the fingerprint, short of a SHA-256 collision, which
exists in principle but is computationally infeasible to exhibit). -/
theorem intent_hash_deterministic_prehash_injective (i1 i2 : Intent) :
    ((i1.intentId = i2.intentId ∧ i1.fromAgent = i2.fromAgent ∧ i1.toAddr = i2.toAddr ∧
      i1.amount = i2.amount ∧ i1.nonce = i2.nonce) →
        compute_intent_hash i1 = compute_intent_hash i2) ∧
    ((pyStr i1.intentId ≠ pyStr i2.intentId ∧ pyStr i1.fromAgent = pyStr i2.fromAgent ∧
      pyStr i1.toAddr = pyStr i2.toAddr ∧ pyStr i1.amount = pyStr i2.amount ∧
      pyStr i1.nonce = pyStr i2.nonce) → intent_str i1 ≠ intent_str i2) ∧
    ((pyStr i1.intentId = pyStr i2.intentId ∧ pyStr i1.fromAgent ≠ pyStr i2.fromAgent ∧
      pyStr i1.toAddr = pyStr i2.toAddr ∧ pyStr i1.amount = pyStr i2.amount ∧
      pyStr i1.nonce = pyStr i2.nonce) → intent_str i1 ≠ intent_str i2) ∧
    ((pyStr i1.intentId = pyStr i2.intentId ∧ pyStr i1.fromAgent = pyStr i2.fromAgent ∧
      pyStr i1.toAddr ≠ pyStr i2.toAddr ∧ pyStr i1.amount = pyStr i2.amount ∧
      pyStr i1.nonce = pyStr i2.nonce) → intent_str i1 ≠ intent_str i2) ∧
    ((pyStr i1.intentId = pyStr i2.intentId ∧ pyStr i1.fromAgent = pyStr i2.fromAgent ∧
      pyStr i1.toAddr = pyStr i2.toAddr ∧ pyStr i1.amount ≠ pyStr i2.amount ∧
      pyStr i1.nonce = pyStr i2.nonce) → intent_str i1 ≠ intent_str i2) ∧
    ((pyStr i1.intentId = pyStr i2.intentId ∧ pyStr i1.fromAgent = pyStr i2.fromAgent ∧
      pyStr i1.toAddr = pyStr i2.toAddr ∧ pyStr i1.amount = pyStr i2.amount ∧
      pyStr i1.nonce ≠ pyStr i2.nonce) → intent_str i1 ≠ intent_str i2) := by
  refine ⟨?_, ?_, ?_, ?_, ?_, ?_⟩
  · rintro ⟨h1, h2, h3, h4, h5⟩
    unfold compute_intent_hash intent_str
    rw [h1, h2, h3, h4, h5]
  · rintro ⟨h1, h2, h3, h4, h5⟩ h
    apply h1
    have hd := congrArg String.data h
    simp only [intent_str, String.data_append, List.append_assoc] at hd
    rw [congrArg String.data h2, congrArg String.data h3, congrArg String.data h4,
      congrArg String.data h5] at hd
    exact string_data_inj (List.append_cancel_right hd)
  · rintro ⟨h1, h2, h3, h4, h5⟩ h
    apply h2
    have hd := congrArg String.data h
    simp only [intent_str, String.data_append, List.append_assoc] at hd
    rw [congrArg String.data h1, congrArg String.data h3, congrArg String.data h4,
      congrArg String.data h5] at hd
    have hd2 := List.append_cancel_left (List.append_cancel_left hd)
    exact string_data_inj (List.append_cancel_right hd2)
  · rintro ⟨h1, h2, h3, h4, h5⟩ h
    apply h3
    have hd := congrArg String.data h
    simp only [intent_str, String.data_append, List.append_assoc] at hd
    rw [congrArg String.data h1, congrArg String.data h2, congrArg String.data h4,
      congrArg String.data h5] at hd
    have hd2 := List.append_cancel_left (List.append_cancel_left
      (List.append_cancel_left (List.append_cancel_left hd)))
    exact string_data_inj (List.append_cancel_right hd2)
  · rintro ⟨h1, h2, h3, h4, h5⟩ h
    apply h4
    have hd := congrArg String.data h
    simp only [intent_str, String.data_append, List.append_assoc] at hd
    rw [congrArg String.data h1, congrArg String.data h2, congrArg String.data h3,
      congrArg String.data h5] at hd
    have hd2 := List.append_cancel_left (List.append_cancel_left (List.append_cancel_left
      (List.append_cancel_left (List.append_cancel_left (List.append_cancel_left hd)))))
    exact string_data_inj (List.append_cancel_right hd2)
  · rintro ⟨h1, h2, h3, h4, h5⟩ h
    apply h5
    have hd := congrArg String.data h
    simp only [intent_str, String.data_append, List.append_assoc] at hd
    rw [congrArg String.data h1, congrArg String.data h2, congrArg String.data h3,
      congrArg String.data h4] at hd
    have hd2 := List.append_cancel_left (List.append_cancel_left (List.append_cancel_left
      (List.append_cancel_left (List.append_cancel_left (List.append_cancel_left
        (List.append_cancel_left (List.append_cancel_left hd)))))))
    exact string_data_inj hd2

/-- Witness for the amended C9: identical tuples give the identical
fingerprint, and changing only the amount changes the digest input
string. -/
theorem intent_hash_deterministic_witness :
    compute_intent_hash ⟨some "i1", some "w", some "t", some "2", none, some 9, some "n",
        some "s1"⟩ =
      compute_intent_hash ⟨some "i1", some "w", some "t", some "2", some "USD", some 9, some "n",
        some "s2"⟩ ∧
    intent_str ⟨some "i1", some "w", some "t", some "2", none, some 9, some "n", some "s1"⟩ ≠
      intent_str ⟨some "i1", some "w", some "t", some "3", none, some 9, some "n", some "s1"⟩ := by
  constructor
  · exact (intent_hash_deterministic_prehash_injective _ _).1 ⟨rfl, rfl, rfl, rfl, rfl⟩
  · exact (intent_hash_deterministic_prehash_injective _ _).2.2.2.2.1
      ⟨by decide, by decide, by decide, by decide, by decide⟩

end X402
